import Mathlib

/-!
# Verification of the rppy reflectivity module (src/rppy/reflectivity.py)

This file gives a shallow embedding of the reflectivity module and settles the
frozen claims about it.  Python/numpy floats are modelled by real numbers,
except that results that are not finite real numbers (IEEE NaN or an infinity)
are represented by a dedicated marker `PyF.nan`, and the Python value `None`
(used by `snell` as its designated no-value marker) is represented by
`Option.none` on top of that.  Exceptions raised by the Python code are
modelled with `Except Err`.

Modelling conventions, stated once here:

* `PyF.nan` stands for any non-finite IEEE result (NaN or an infinity).  The
  operations below send any expression with a non-finite operand, and any
  division by zero, to `PyF.nan`.  This identification is adequate for every
  theorem below because none of them evaluates an operation that maps a
  non-finite float back to a finite one (such as 1/inf).
* numpy elementwise operations on float arrays never raise: out-of-domain
  `arcsin`/`log`/`sqrt` and elementwise division by zero produce NaN/inf with
  a warning only.  Scalar divisions between plain Python floats, in contrast,
  raise ZeroDivisionError; those appear as explicit guards returning
  `Err.zeroDivisionError`.
* an arithmetic operation on a Python `None` (an object array element) raises
  TypeError; `np.linalg.inv` of a singular matrix raises LinAlgError.
-/

noncomputable section

/-- Exceptions that the Python code can raise.  `domainError` is the typed
error postulated by the specification; it is included so that statements of
the form "the code does not raise DomainError" are expressible. -/
inductive Err : Type where
  | typeError : Err
  | zeroDivisionError : Err
  | linAlgError : Err
  | nameError : Err
  | domainError : Err
deriving DecidableEq

/-- A Python/numpy float: either a finite real value or the non-finite
marker (NaN or an infinity, see the module docstring). -/
inductive PyF : Type where
  | nan : PyF
  | val : ℝ → PyF

namespace PyF

/-- Lift a real number to a float value. -/
def pv (x : ℝ) : PyF := PyF.val x

/-- Addition; any non-finite operand gives a non-finite result. -/
def add : PyF → PyF → PyF
  | val a, val b => val (a + b)
  | _, _ => nan

/-- Subtraction. -/
def sub : PyF → PyF → PyF
  | val a, val b => val (a - b)
  | _, _ => nan

/-- Multiplication.  Note IEEE `0 * NaN = NaN` and `0 * inf = NaN`, so the
non-finite marker absorbs even multiplication by zero. -/
def mul : PyF → PyF → PyF
  | val a, val b => val (a * b)
  | _, _ => nan

/-- Division: division by zero gives a non-finite float (inf or NaN). -/
def div : PyF → PyF → PyF
  | val a, val b => if b = 0 then nan else val (a / b)
  | _, _ => nan

/-- Negation. -/
def neg : PyF → PyF
  | val a => val (-a)
  | nan => nan

instance : Add PyF := ⟨add⟩
instance : Sub PyF := ⟨sub⟩
instance : Mul PyF := ⟨mul⟩
instance : Div PyF := ⟨div⟩
instance : Neg PyF := ⟨neg⟩

/-- Natural-number power, used for the literal exponents `**2` and `**4`.
(The exponents occurring in the code are all positive, so propagating the
non-finite marker is exact.) -/
def npow : PyF → ℕ → PyF
  | val a, n => val (a ^ n)
  | nan, _ => nan

instance : Pow PyF ℕ := ⟨npow⟩

/-- numpy sine of a float. -/
def psin : PyF → PyF
  | val a => val (Real.sin a)
  | nan => nan

/-- numpy cosine of a float. -/
def pcos : PyF → PyF
  | val a => val (Real.cos a)
  | nan => nan

/-- numpy tangent.  Modelled as sin/cos; the only argument at which this
differs in spirit from float `tan` (an exact odd multiple of pi/2, where the
float result would be a huge finite number) is never hit by the theorems
below, which always keep the angle strictly below pi/2. -/
def ptan (x : PyF) : PyF := psin x / pcos x

/-- numpy natural logarithm: NaN for a negative argument, -inf at zero. -/
def plog : PyF → PyF
  | val a => if a ≤ 0 then nan else val (Real.log a)
  | nan => nan

/-- numpy square root: NaN for a negative argument. -/
def psqrt : PyF → PyF
  | val a => if a < 0 then nan else val (Real.sqrt a)
  | nan => nan

/-- numpy arcsine of a real scalar: NaN outside [-1, 1]. -/
def np_arcsin (x : ℝ) : PyF :=
  if x < -1 ∨ 1 < x then nan else val (Real.arcsin x)

/-- numpy arcsine of a float. -/
def parcsin : PyF → PyF
  | val a => np_arcsin a
  | nan => nan

/-- The Python comparison `a >= b` against a possibly-NaN float `b`:
any comparison with NaN is false. -/
def pyGE (a : ℝ) : PyF → Prop
  | val y => y ≤ a
  | nan => False


end PyF

open PyF

/-- Result of the per-angle body of `snell` (lines 194-206 of the source):
the transmitted P angle `t2` and transmitted S angle `ts2` may be the Python
marker `None` (here `Option.none`); the reflected S angle `ts1` and the ray
parameter `p` are always assigned a float. -/
structure SnellOut : Type where
  t2 : Option PyF
  ts1 : PyF
  ts2 : Option PyF
  p : PyF

open scoped Classical in
/-- Per-angle body of `snell(vp1, vp2, vs1, vs2, theta1)`.

Transcription of the source: the two critical angles are
`theta_crit_1 = arcsin(vp1/vp2)` and `theta_crit_2 = arcsin(vp1/vs2)`, both
possibly NaN; the comparisons `theta1 >= theta_crit` are Python float
comparisons, false when the critical angle is NaN.  The branch structure is
exactly the source: the `theta1 >= theta_crit_1` test comes first, then
`theta1 >= theta_crit_2`, then the sub-critical branch.

The scalar divisions `vp1/vp2` and `vp1/vs2` raise ZeroDivisionError in
Python when `vp2 = 0` or `vs2 = 0`; that error is modelled in the list-level
wrappers below (every theorem keeps those velocities nonzero), so here the
quotients are real-field quotients. -/
def snell1 (vp1 vp2 vs1 vs2 θ1 : ℝ) : SnellOut :=
  let tc1 := np_arcsin (vp1 / vp2)
  let tc2 := np_arcsin (vp1 / vs2)
  let p := pv (Real.sin θ1) / pv vp1
  let ts1 := parcsin (p * pv vs1)
  if pyGE θ1 tc1 then
    ⟨Option.none, ts1, some (parcsin (p * pv vs2)), p⟩
  else if pyGE θ1 tc2 then
    ⟨Option.none, ts1, Option.none, p⟩
  else
    ⟨some (parcsin (p * pv vp2)), ts1, some (parcsin (p * pv vs2)), p⟩

/-- The sequence-level `snell`: the loop applies the per-angle body
independently to each element.  The scalar divisions by `vp2` and `vs2`
(lines 186-187) raise ZeroDivisionError when those are zero. -/
def snell (vp1 vp2 vs1 vs2 : ℝ) (θs : List ℝ) :
    Except Err (List SnellOut) :=
  if vp2 = 0 ∨ vs2 = 0 then Except.error Err.zeroDivisionError
  else Except.ok (θs.map (snell1 vp1 vp2 vs1 vs2))

/-- Elementwise evaluation of a per-angle formula over the angle sequence,
stopping at the first raised exception (which is then the result of the whole
call, as in Python). -/
def mapFormula (f : ℝ → Except Err PyF) : List ℝ → Except Err (List PyF)
  | [] => Except.ok []
  | t :: ts =>
    match f t, mapFormula f ts with
    | Except.ok y, Except.ok ys => Except.ok (y :: ys)
    | Except.error e, _ => Except.error e
    | Except.ok _, Except.error e => Except.error e

/-! ## The isotropic exact solver (zoeppritz), lines 92-150 -/

/-- The boundary-condition matrix `M` of `zoeppritz`, transcribed entry by
entry from lines 115-127 of the source (including the `rho2*vs1` and
`thetas2` factors of row 2, column 1, exactly as written there). -/
def Mzoe (vp1 vs1 rho1 vp2 vs2 rho2 t1 s1 t2 s2 : ℝ) :
    Matrix (Fin 4) (Fin 4) ℝ :=
  !![-Real.sin t1, -Real.cos s1, Real.sin t2, Real.cos s2;
     Real.cos t1, -Real.sin s1, Real.cos t2, -Real.sin s2;
     2*rho1*vs1*Real.sin s1*Real.cos t1, rho2*vs1*(1 - 2*Real.sin s2^2),
       2*rho2*vs2*Real.sin s2*Real.cos t2, rho2*vs2*(1 - 2*Real.sin s2^2);
     -(rho1*vp1*(1 - 2*Real.sin s1^2)), rho1*vs1*Real.sin (2*s1),
       rho2*vp2*(1 - 2*Real.sin s2^2), -(rho2*vs2*Real.sin (2*s2))]

/-- The boundary-condition matrix `N` of `zoeppritz`, lines 129-141. -/
def Nzoe (vp1 vs1 rho1 vp2 vs2 rho2 t1 s1 t2 s2 : ℝ) :
    Matrix (Fin 4) (Fin 4) ℝ :=
  !![Real.sin t1, Real.cos s1, -Real.sin t2, -Real.cos s2;
     Real.cos t1, -Real.sin s1, Real.cos t2, -Real.sin s2;
     2*rho1*vs1*Real.sin s1*Real.cos t1, rho2*vs1*(1 - 2*Real.sin s2^2),
       2*rho2*vs2*Real.sin s2*Real.cos t2, rho2*vs2*(1 - 2*Real.sin s2^2);
     rho1*vp1*(1 - 2*Real.sin s1^2), -(rho1*vs1*Real.sin (2*s1)),
       -(rho2*vp2*(1 - 2*Real.sin s2^2)), rho2*vs2*Real.sin (2*s2)]

open scoped Classical in
/-- Per-angle body of `zoeppritz`: solve `Z = M^-1 N` and read off the first
column `(Rpp, Rps, Tpp, Tps) = (Z[0][0], Z[1][0], Z[2][0], Z[3][0])`.

A `None` transmitted angle makes `np.sin` raise TypeError; a NaN angle
propagates NaN through the matrices and the solve (no exception), modelled by
the all-NaN quadruple; `np.linalg.inv` raises LinAlgError exactly on a
singular matrix. -/
def zoeppritzFull1 (vp1 vs1 rho1 vp2 vs2 rho2 θ1 : ℝ) :
    Except Err (PyF × PyF × PyF × PyF) :=
  let s := snell1 vp1 vp2 vs1 vs2 θ1
  match s.t2, s.ts2 with
  | some t2f, some ts2f =>
    match t2f, s.ts1, ts2f with
    | PyF.val t2, PyF.val ts1, PyF.val ts2 =>
      let M := Mzoe vp1 vs1 rho1 vp2 vs2 rho2 θ1 ts1 t2 ts2
      let N := Nzoe vp1 vs1 rho1 vp2 vs2 rho2 θ1 ts1 t2 ts2
      if M.det = 0 then Except.error Err.linAlgError
      else
        Except.ok (PyF.val ((M⁻¹ * N) 0 0), PyF.val ((M⁻¹ * N) 1 0),
          PyF.val ((M⁻¹ * N) 2 0), PyF.val ((M⁻¹ * N) 3 0))
    | _, _, _ => Except.ok (PyF.nan, PyF.nan, PyF.nan, PyF.nan)
  | _, _ => Except.error Err.typeError

/-- Per-angle `zoeppritz` as seen by the caller: line 150 is `return(Rpp)`,
so only the first of the four computed coefficients is returned. -/
def zoeppritz1 (vp1 vs1 rho1 vp2 vs2 rho2 θ1 : ℝ) : Except Err PyF :=
  Except.map (fun q => q.1) (zoeppritzFull1 vp1 vs1 rho1 vp2 vs2 rho2 θ1)

/-- Sequence-level `zoeppritz` (the per-angle loop, after the `snell`
call whose scalar divisions can raise). -/
def zoeppritz (vp1 vs1 rho1 vp2 vs2 rho2 : ℝ) (θs : List ℝ) :
    Except Err (List PyF) :=
  if vp2 = 0 ∨ vs2 = 0 then Except.error Err.zeroDivisionError
  else mapFormula (zoeppritz1 vp1 vs1 rho1 vp2 vs2 rho2) θs

/-! ## The closed-form approximations (shuey, aki_richards, bortfeld),
lines 33-89 and 153-172 -/

open scoped Classical

/-- Per-angle body of `shuey`.  Line 53 adds the (possibly `None`)
transmitted angle to `theta1` (TypeError on `None`); lines 55-57 divide by
the scalar layer averages `vp`, `rho`, `vs` (ZeroDivisionError when such an
average is zero); line 59 is the three-term expression, elementwise. -/
def shuey1 (vp1 vs1 rho1 vp2 vs2 rho2 θ1 : ℝ) : Except Err PyF :=
  let s := snell1 vp1 vp2 vs1 vs2 θ1
  match s.t2 with
  | Option.none => Except.error Err.typeError
  | some t2 =>
    let dvp := vp2 - vp1
    let drho := rho2 - rho1
    let dvs := vs2 - vs1
    let rho := (rho1 + rho2)/2
    let vs := (vs1 + vs2)/2
    let vp := (vp1 + vp2)/2
    if vp = 0 ∨ rho = 0 ∨ vs = 0 then Except.error Err.zeroDivisionError
    else
      let theta := (pv θ1 + t2) / pv 2
      let A := (1/2)*(dvp/vp + drho/rho)
      let B := (1/2)*dvp/vp - 2*vs^2/vp^2*(drho/rho + 2*dvs/vs)
      let C := (1/2)*dvp/vp
      Except.ok (pv A + pv B * (psin theta)^2 +
        pv C * ((ptan theta)^2 - (psin theta)^2))

/-- Sequence-level `shuey`.  The error order follows the source: the `snell`
scalar divisions, then the whole-array `(theta1 + theta2)/2` (TypeError if
any element of `theta2` is `None`), then the scalar divisions of lines
55-57, then the elementwise evaluation. -/
def shuey (vp1 vs1 rho1 vp2 vs2 rho2 : ℝ) (θs : List ℝ) :
    Except Err (List PyF) :=
  if vp2 = 0 ∨ vs2 = 0 then Except.error Err.zeroDivisionError
  else if ∃ t ∈ θs, (snell1 vp1 vp2 vs1 vs2 t).t2 = Option.none then
    Except.error Err.typeError
  else if (vp1 + vp2)/2 = 0 ∨ (rho1 + rho2)/2 = 0 ∨ (vs1 + vs2)/2 = 0 then
    Except.error Err.zeroDivisionError
  else mapFormula (shuey1 vp1 vs1 rho1 vp2 vs2 rho2) θs

/-- Per-angle body of `aki_richards`.  Only `drho/rho` (line 86) is a
scalar-by-scalar division that can raise; the divisions by
`2*cos(theta)**2*vp` and by `vs` have array numerators, so a zero there
gives non-finite elements with a warning only. -/
def aki_richards1 (vp1 vs1 rho1 vp2 vs2 rho2 θ1 : ℝ) : Except Err PyF :=
  let s := snell1 vp1 vp2 vs1 vs2 θ1
  match s.t2 with
  | Option.none => Except.error Err.typeError
  | some t2 =>
    let dvp := vp2 - vp1
    let dvs := vs2 - vs1
    let drho := rho2 - rho1
    let rho := (rho1 + rho2)/2
    let vp := (vp1 + vp2)/2
    let vs := (vs1 + vs2)/2
    if rho = 0 then Except.error Err.zeroDivisionError
    else
      let theta := (pv θ1 + t2) / pv 2
      Except.ok (pv (1/2) * (pv 1 - pv 4 * s.p^2 * pv vs^2) * pv (drho/rho) +
        pv dvp / (pv 2 * (pcos theta)^2 * pv vp) -
        pv 4 * s.p^2 * pv vs^2 * pv dvs / pv vs)

/-- Sequence-level `aki_richards`. -/
def aki_richards (vp1 vs1 rho1 vp2 vs2 rho2 : ℝ) (θs : List ℝ) :
    Except Err (List PyF) :=
  if vp2 = 0 ∨ vs2 = 0 then Except.error Err.zeroDivisionError
  else if ∃ t ∈ θs, (snell1 vp1 vp2 vs1 vs2 t).t2 = Option.none then
    Except.error Err.typeError
  else if (rho1 + rho2)/2 = 0 then Except.error Err.zeroDivisionError
  else mapFormula (aki_richards1 vp1 vs1 rho1 vp2 vs2 rho2) θs

/-- Per-angle body of `bortfeld` (lines 168-170).  `np.cos(theta2)` raises
TypeError on `None`; the scalar divisions `rho2/rho1` and `vs2/vs1` raise
ZeroDivisionError on a zero denominator; everything else is elementwise
float arithmetic (non-finite results, never an exception). -/
def bortfeld1 (vp1 vs1 rho1 vp2 vs2 rho2 θ1 : ℝ) : Except Err PyF :=
  let s := snell1 vp1 vp2 vs1 vs2 θ1
  match s.t2 with
  | Option.none => Except.error Err.typeError
  | some t2 =>
    if rho1 = 0 ∨ vs1 = 0 then Except.error Err.zeroDivisionError
    else
      Except.ok (pv (1/2) * plog ((pv vp2 * pv rho2 * pcos (pv θ1)) /
          (pv vp1 * pv rho1 * pcos t2)) +
        (psin (pv θ1) / pv vp1)^2 * pv (vs1^2 - vs2^2) *
          (pv 2 + plog (pv (rho2/rho1)) / plog (pv (vs2/vs1))))

/-- Sequence-level `bortfeld`. -/
def bortfeld (vp1 vs1 rho1 vp2 vs2 rho2 : ℝ) (θs : List ℝ) :
    Except Err (List PyF) :=
  if vp2 = 0 ∨ vs2 = 0 then Except.error Err.zeroDivisionError
  else if ∃ t ∈ θs, (snell1 vp1 vp2 vs1 vs2 t).t2 = Option.none then
    Except.error Err.typeError
  else if rho1 = 0 ∨ vs1 = 0 then Except.error Err.zeroDivisionError
  else mapFormula (bortfeld1 vp1 vs1 rho1 vp2 vs2 rho2) θs

/-! ## The Ruger approximations, lines 251-286 and 398-432 -/

/-- The value computed by `ruger_vti` for one angle, given a transmitted
angle value `t2`.  Line 259 computes the mean angle and line 260 immediately
overwrites it with `theta1`; both assignments are kept (the second `let`
shadows the first), which is exactly the dead computation of the source. -/
def rugerVtiCore (Vp1 Vs1 p1 e1 d1 Vp2 Vs2 p2 e2 d2 θ1 : ℝ) (t2 : PyF) : PyF :=
  let theta := (pv θ1 + t2) / pv 2
  let theta := pv θ1
  let u1 := p1*Vs1^2
  let u2 := p2*Vs2^2
  let Z1 := p1*Vp1
  let Z2 := p2*Vp2
  let a := (Vp1 + Vp2)/2
  let B := (Vs1 + Vs2)/2
  let Z := (Z1 + Z2)/2
  let u := (u1 + u2)/2
  let dZ := Z2 - Z1
  let da := Vp2 - Vp1
  let du := u2 - u1
  let dd := d2 - d1
  let de := e2 - e1
  let Rpp_iso := pv ((1/2)*(dZ/Z)) +
    pv ((1/2)*(da/a - (2*B/a)^2*(du/u))) * (psin theta)^2 +
    pv ((1/2)*(da/a)) * (psin theta)^2 * (ptan theta)^2
  let Rpp_an := pv (dd/2) * (psin theta)^2 + pv (de/2) * (psin theta)^2 * (ptan theta)^2
  Rpp_iso + Rpp_an

/-- The Ruger VTI expression evaluated at the incidence angle `theta1`
alone, with no reference to a transmitted angle. -/
def rugerVtiRpp (Vp1 Vs1 p1 e1 d1 Vp2 Vs2 p2 e2 d2 θ1 : ℝ) : PyF :=
  rugerVtiCore Vp1 Vs1 p1 e1 d1 Vp2 Vs2 p2 e2 d2 θ1 (pv θ1)

/-- Per-angle body of `ruger_vti`: the mean-angle line raises TypeError on a
`None` transmitted angle; the scalar divisions by the averages `Z`, `a`, `u`
raise ZeroDivisionError when those are zero. -/
def ruger_vti1 (Vp1 Vs1 p1 e1 d1 Vp2 Vs2 p2 e2 d2 θ1 : ℝ) : Except Err PyF :=
  let s := snell1 Vp1 Vp2 Vs1 Vs2 θ1
  match s.t2 with
  | Option.none => Except.error Err.typeError
  | some t2 =>
    if (p1*Vp1 + p2*Vp2)/2 = 0 ∨ (Vp1 + Vp2)/2 = 0 ∨
        (p1*Vs1^2 + p2*Vs2^2)/2 = 0 then
      Except.error Err.zeroDivisionError
    else Except.ok (rugerVtiCore Vp1 Vs1 p1 e1 d1 Vp2 Vs2 p2 e2 d2 θ1 t2)

/-- Sequence-level `ruger_vti`. -/
def ruger_vti (Vp1 Vs1 p1 e1 d1 Vp2 Vs2 p2 e2 d2 : ℝ) (θs : List ℝ) :
    Except Err (List PyF) :=
  if Vp2 = 0 ∨ Vs2 = 0 then Except.error Err.zeroDivisionError
  else if ∃ t ∈ θs, (snell1 Vp1 Vp2 Vs1 Vs2 t).t2 = Option.none then
    Except.error Err.typeError
  else if (p1*Vp1 + p2*Vp2)/2 = 0 ∨ (Vp1 + Vp2)/2 = 0 ∨
      (p1*Vs1^2 + p2*Vs2^2)/2 = 0 then
    Except.error Err.zeroDivisionError
  else mapFormula (ruger_vti1 Vp1 Vs1 p1 e1 d1 Vp2 Vs2 p2 e2 d2) θs

/-- Per-angle body of `ruger_hti` (lines 398-432).  The transmitted angles
from `snell` are never used, so a post-critical angle raises nothing; the
divisions by the scalar averages `Z`, `a`, `u` can raise.  The local name
`B` is first the mean shear velocity and is then overwritten by the gradient
coefficient, exactly as in the source. -/
def ruger_hti1 (Vp1 Vs1 p1 e1 dv1 y1 Vp2 Vs2 p2 e2 dv2 y2 θ1 az : ℝ) :
    Except Err PyF :=
  let s := snell1 Vp1 Vp2 Vs1 Vs2 θ1
  let u1 := p1*Vs1^2
  let u2 := p2*Vs2^2
  let Z1 := p1*Vp1
  let Z2 := p2*Vp2
  let a := (Vp1 + Vp2)/2
  let B := (Vs1 + Vs2)/2
  let Z := (Z1 + Z2)/2
  let u := (u1 + u2)/2
  if Z = 0 ∨ a = 0 ∨ u = 0 then Except.error Err.zeroDivisionError
  else
    let dZ := Z2 - Z1
    let da := Vp2 - Vp1
    let du := u2 - u1
    let ddv := dv2 - dv1
    let de := e2 - e1
    let dy := y2 - y1
    let A := (1/2)*(dZ/Z)
    let B := (1/2)*(da/a - (2*B/a)^2*du/u + (ddv + 2*(2*B/a)^2*dy)*Real.sin az^2)
    let C := (1/2)*(da/a + de*Real.cos az^4 + ddv*Real.sin az^2*Real.cos az^2)
    Except.ok (pv A + pv B * (psin (pv θ1))^2 +
      pv C * (psin (pv θ1))^2 * (ptan (pv θ1))^2)

/-- Sequence-level `ruger_hti`. -/
def ruger_hti (Vp1 Vs1 p1 e1 dv1 y1 Vp2 Vs2 p2 e2 dv2 y2 : ℝ)
    (θs : List ℝ) (az : ℝ) : Except Err (List PyF) :=
  if Vp2 = 0 ∨ Vs2 = 0 then Except.error Err.zeroDivisionError
  else if (p1*Vp1 + p2*Vp2)/2 = 0 ∨ (Vp1 + Vp2)/2 = 0 ∨
      (p1*Vs1^2 + p2*Vs2^2)/2 = 0 then
    Except.error Err.zeroDivisionError
  else mapFormula (fun t => ruger_hti1 Vp1 Vs1 p1 e1 dv1 y1 Vp2 Vs2 p2 e2 dv2 y2 t az) θs

/-! ## The anisotropy parameter converter (thomsen, Cij), lines 211-248 -/

/-- The Thomsen parameters `(e, d, y, dv)` computed by `thomsen(C)`
(lines 217-224).  The scalar divisions raise ZeroDivisionError when
`C[2][2]`, `C[4][4]` or `C[2][2] - C[4][4]` is zero, in the order the
source evaluates them. -/
def thomsen1 (C : Matrix (Fin 6) (Fin 6) ℝ) : Except Err (ℝ × ℝ × ℝ × ℝ) :=
  if C 2 2 = 0 then Except.error Err.zeroDivisionError
  else if C 4 4 = 0 then Except.error Err.zeroDivisionError
  else if C 2 2 - C 4 4 = 0 then Except.error Err.zeroDivisionError
  else
    Except.ok ((C 0 0 - C 2 2) / (2*C 2 2),
      (C 0 2 + 2*C 4 4 - C 2 2)*(C 0 2 + C 2 2) / (2*C 2 2*(C 2 2 - C 4 4)),
      (C 5 5 - C 4 4) / (2*C 4 4),
      ((C 0 2 + C 4 4)^2 - (C 2 2 - C 4 4)^2) / (2*C 2 2*(C 2 2 - C 4 4)))

/-- The stiffness matrix built by `Cij(e, d, y, p, Vp, Vs)` (lines 233-246):
`np.zeros((6,6))` followed by the ten explicit assignments.  In particular
the entries `C[1][2]`/`C[2][1]` are left at zero.  `np.sqrt` is modelled by
`Real.sqrt`; every theorem below evaluates it on a nonnegative radicand
only, where the two agree. -/
def CijM (e d y ρ Vp Vs : ℝ) : Matrix (Fin 6) (Fin 6) ℝ :=
  let f := 1 - (Vs/Vp)^2
  let dtil := f*(Real.sqrt (1 + 2*d/f) - 1)
  Matrix.of fun i j =>
    match i, j with
    | ⟨0, _⟩, ⟨0, _⟩ => ρ*Vp^2*(1 + 2*e)
    | ⟨1, _⟩, ⟨1, _⟩ => ρ*Vp^2*(1 + 2*e)
    | ⟨2, _⟩, ⟨2, _⟩ => ρ*Vp^2
    | ⟨3, _⟩, ⟨3, _⟩ => ρ*Vp^2*(1 - f)
    | ⟨4, _⟩, ⟨4, _⟩ => ρ*Vp^2*(1 - f)
    | ⟨5, _⟩, ⟨5, _⟩ => ρ*Vp^2*(1 - f)*(1 + 2*y)
    | ⟨0, _⟩, ⟨2, _⟩ => ρ*Vp^2*(2*f + dtil - 1)
    | ⟨2, _⟩, ⟨0, _⟩ => ρ*Vp^2*(2*f + dtil - 1)
    | ⟨0, _⟩, ⟨1, _⟩ => ρ*Vp^2*(1 + 2*e) - 2*(ρ*Vp^2*(1 - f)*(1 + 2*y))
    | ⟨1, _⟩, ⟨0, _⟩ => ρ*Vp^2*(1 + 2*e) - 2*(ρ*Vp^2*(1 - f)*(1 + 2*y))
    | _, _ => 0

/-- `Cij` with its failure modes: the scalar divisions `(Vs/Vp)**2` and
`2*d/f` raise ZeroDivisionError when `Vp = 0` or `f = 0`. -/
def Cij1 (e d y ρ Vp Vs : ℝ) : Except Err (Matrix (Fin 6) (Fin 6) ℝ) :=
  if Vp = 0 then Except.error Err.zeroDivisionError
  else if 1 - (Vs/Vp)^2 = 0 then Except.error Err.zeroDivisionError
  else Except.ok (CijM e d y ρ Vp Vs)

/-- A transversely isotropic stiffness matrix with the exact sparsity
pattern that `Cij` produces (the data model of the specification): the five
independent constants, their symmetric counterparts, `C22 = C11`,
`C44 = C55`, `C12 = C11 - 2 C66`, and zeros elsewhere (including
`C[1][2]`). -/
def VTImat (c11 c33 c13 c55 c66 : ℝ) : Matrix (Fin 6) (Fin 6) ℝ :=
  Matrix.of fun i j =>
    match i, j with
    | ⟨0, _⟩, ⟨0, _⟩ => c11
    | ⟨1, _⟩, ⟨1, _⟩ => c11
    | ⟨2, _⟩, ⟨2, _⟩ => c33
    | ⟨3, _⟩, ⟨3, _⟩ => c55
    | ⟨4, _⟩, ⟨4, _⟩ => c55
    | ⟨5, _⟩, ⟨5, _⟩ => c66
    | ⟨0, _⟩, ⟨2, _⟩ => c13
    | ⟨2, _⟩, ⟨0, _⟩ => c13
    | ⟨0, _⟩, ⟨1, _⟩ => c11 - 2*c66
    | ⟨1, _⟩, ⟨0, _⟩ => c11 - 2*c66
    | _, _ => 0

/-- The round trip of the claim: extract the Thomsen parameters of `C` with
`thomsen`, then rebuild a stiffness matrix with `Cij` using the matching
density and vertical velocities `Vp = sqrt(C33/rho)`, `Vs = sqrt(C55/rho)`. -/
def roundTrip (C : Matrix (Fin 6) (Fin 6) ℝ) (ρ : ℝ) :
    Except Err (Matrix (Fin 6) (Fin 6) ℝ) :=
  match thomsen1 C with
  | Except.error er => Except.error er
  | Except.ok (e, d, y, _dv) =>
    Cij1 e d y ρ (Real.sqrt (C 2 2 / ρ)) (Real.sqrt (C 4 4 / ρ))

/-! ## The exact HTI solver (exact_hti), lines 466-533 -/

/-- Per-angle `exact_hti`.  After the two `Cij` calls (whose scalar
divisions can raise) and the slowness computations of lines 477-484 (numpy
elementwise operations and the scalar powers `vp1**-2`, `vs1**-2`, which
raise ZeroDivisionError only on a zero base), line 485 reads the name `p`,
which is bound nowhere in the function or module: every call that reaches it
raises NameError.  Control never reaches the impedance matrices or the
`np.invert` / elementwise `*` combination of lines 529-531 (which would
itself be bitwise inversion, a TypeError on float arrays, rather than the
matrix algebra of the specification). -/
def exact_hti1 (vp1 vs1 p1 e1 d1 y1 vp2 vs2 p2 e2 d2 y2 θ1 : ℝ) :
    Except Err ℝ :=
  match Cij1 e1 d1 y1 p1 vp1 vs1 with
  | Except.error er => Except.error er
  | Except.ok _C =>
    match Cij1 e2 d2 y2 p2 vp2 vs2 with
    | Except.error er => Except.error er
    | Except.ok _Cp =>
      if vs1 = 0 then Except.error Err.zeroDivisionError
      else Except.error Err.nameError

/-- Sequence-level `exact_hti`: the NameError at line 485 is raised before
any output is produced, for every angle sequence including the empty one. -/
def exact_hti (vp1 vs1 p1 e1 d1 y1 vp2 vs2 p2 e2 d2 y2 : ℝ)
    (θs : List ℝ) : Except Err (List ℝ) :=
  match Cij1 e1 d1 y1 p1 vp1 vs1 with
  | Except.error er => Except.error er
  | Except.ok _C =>
    match Cij1 e2 d2 y2 p2 vp2 vs2 with
    | Except.error er => Except.error er
    | Except.ok _Cp =>
      if vs1 = 0 then Except.error Err.zeroDivisionError
      else Except.error Err.nameError

/-! ## The exact VTI solver (exact_vti), lines 289-395 -/

set_option maxHeartbeats 1000000 in
/-- The per-angle value computed by `exact_vti` (lines 309-395), given the
per-angle ray geometry: `t2`, `t4` are the transmitted P and S angle values
and `theta3` the reflected S angle.  A term-for-term transcription. -/
def exactVtiRpp (V1 V2 V3 V4 p1 p2 θ1
    C1_11 C1_13 C1_33 C1_55 C2_11 C2_13 C2_33 C2_55 : ℝ)
    (t2 theta3 t4 : PyF) : PyF :=
  let x := psin (pv θ1)
      let n := V1/V2
      let k1 := V3/V1
      let k2 := V4/V2
      let P := psqrt (pv 1 - x^2)
      let Q := psqrt (pv 1 - pv (k1^2) * x^2)
      let S := psqrt (pv 1 - x^2 / pv (n^2))
      let R := psqrt (pv 1 - pv (k2^2) * x^2 / pv (n^2))
      let A1_11 := C1_11 / p1
      let A1_33 := C1_33 / p1
      let A1_55 := C1_55 / p1
      let A1_13 := C1_13 / p1
      let A1_1 := 2*(A1_13 + A1_55)^2 - (A1_33 - A1_55)*(A1_11 + A1_33 - 2*A1_55)
      let A1_2 := (A1_11 + A1_33 - 2*A1_55)^2 - 4*(A1_13 + A1_55)^2
      let Q1 := psqrt (pv ((A1_33 - A1_55)^2) + pv (2*A1_1) * psin (pv θ1) +
        pv A1_2 * psin (pv θ1))
      let l1 := psqrt (((Q1 - pv A1_33 + pv A1_55) / (psin (pv θ1))^2 +
        pv (A1_11 + A1_33 - 2*A1_55)) / (pv 2 * Q1))
      let m1 := psqrt (((Q1 - pv A1_11 + pv A1_55) / (pcos (pv θ1))^2 +
        pv (A1_11 + A1_33 - 2*A1_55)) / (pv 2 * Q1))
      let l3 := psqrt (((Q1 - pv A1_33 + pv A1_55) / (psin theta3)^2 +
        pv (A1_11 + A1_33 - 2*A1_55)) / (pv 2 * Q1))
      let m3 := psqrt (((Q1 - pv A1_11 + pv A1_55) / (pcos theta3)^2 +
        pv (A1_11 + A1_33 - 2*A1_55)) / (pv 2 * Q1))
      let d1 := l3 * pv C1_33 - m3 * pv C1_13
      let e1 := l1 * pv C1_13 + (m1 * pv C1_33 - l1 * pv C1_13) * (pcos (pv θ1))^2
      let w1 := pv (V1/V3) * (pv 1 / (l1 + m1)) *
        (m3 * (pcos theta3)^2 - l3 * (psin theta3)^2)
      let B1 := pv C1_55
      let A2_11 := C2_11 / p2
      let A2_33 := C2_33 / p2
      let A2_55 := C2_55 / p2
      let A2_13 := C2_13 / p2
      let A2_1 := 2*(A2_13 + A2_55)^2 - (A2_33 - A2_55)*(A2_11 + A2_33 - 2*A2_55)
      let A2_2 := (A2_11 + A2_33 - 2*A2_55)^2 - 4*(A2_13 + A2_55)^2
      let Q2 := psqrt (pv ((A2_33 - A2_55)^2) + pv (2*A2_1) * psin t2 +
        pv A2_2 * psin t2)
      let l2 := psqrt (((Q2 - pv A2_33 + pv A2_55) / (psin t2)^2 +
        pv (A2_11 + A2_33 - 2*A2_55)) / (pv 2 * Q2))
      let m2 := psqrt (((Q2 - pv A2_11 + pv A2_55) / (pcos t2)^2 +
        pv (A2_11 + A2_33 - 2*A2_55)) / (pv 2 * Q2))
      let l4 := psqrt (((Q2 - pv A2_33 + pv A2_55) / (psin t4)^2 +
        pv (A2_11 + A2_33 - 2*A2_55)) / (pv 2 * Q2))
      let m4 := psqrt (((Q2 - pv A2_11 + pv A2_55) / (pcos t4)^2 +
        pv (A2_11 + A2_33 - 2*A2_55)) / (pv 2 * Q2))
      let d2 := l4 * pv C2_33 - m4 * pv C2_13
      let e2 := pv (V1/V2) * (l2 * pv C2_13 + (m2 * pv C2_33 - l2 * pv C2_13) * (pcos t2)^2)
      let w2 := pv (V1/V4) * (pv 1 / (l1 + m1)) *
        (m4 * (pcos t4)^2 - l4 * (psin t4)^2)
      let B2 := pv C2_55
      let l := (l2 + m2) / (l1 + m1)
      let T1 := e2 - (e1 * l2) / (pv n * l1)
      let T2 := B2 * w2 * pv k1 * l3 / m1 - B1 * (w1 * pv k2 * l4) / (pv n * m1)
      let T3 := B2 * w2 + B1 * (pv k2 * x^2 * l4) / (pv n * m1)
      let T4 := e2 * m3 / l1 + (d1 * x^2 * l2) / (pv n * l1)
      let T5 := B1 * (w1 + pv k1 * x^2 * l3 / m1)
      let T6 := e2 * m4 / l1 + (d2 * x^2 * l2) / (pv n * l1)
      let T7 := B2 * l - B1 * m2 / m1
      let T8 := d2 * m3 / l1 - d1 * m4 / l1
      let T9 := B2 * (w2 * m2 / m1 + pv k2 * x^2 * l * l4 / (pv n * m1))
      let T10 := e1 * m3 / l1 + d1 * x^2
      let T11 := e1 * m4 / l1 + d2 * x^2
      let T12 := B2 * pv k1 * x^2 * l * l3 / m1 + B1 * w1 * m2 / m1
      let E1 := T1 * T2 * x^2
      let E2 := T3 * T4 * P * Q
      let E3 := T5 * T6 * P * R
      let E4 := T7 * T8 * x^2 * P * Q * R * S
      let E5 := T9 * T10 * Q * S
      let E6 := T11 * T12 * R * S
  let D := E1 + E2 + E3 + E4 + E5 + E6
  (-E1 + E2 + E3 + E4 - E5 - E6) / D

/-- Per-angle body of `exact_vti`, lines 307-395.  The scalar divisions
`V1/V2`, `V3/V1`, `V4/V2`, `C1_xx/p1`, `V1/V3`, `C2_xx/p2`, `V1/V4` raise
ZeroDivisionError on a zero denominator (all of them are evaluated before
the transmitted angles are first touched at line 354); a `None` transmitted
P or S angle then raises TypeError; all remaining arithmetic is elementwise
float arithmetic, evaluated by `exactVtiRpp`. -/
def exact_vti1 (V1 V2 V3 V4 p1 p2 θ1
    C1_11 C1_13 C1_33 C1_55 C2_11 C2_13 C2_33 C2_55 : ℝ) : Except Err PyF :=
  if V2 = 0 ∨ V4 = 0 ∨ V1 = 0 ∨ p1 = 0 ∨ V3 = 0 ∨ p2 = 0 then
    Except.error Err.zeroDivisionError
  else
    let s := snell1 V1 V2 V3 V4 θ1
    match s.t2, s.ts2 with
    | some t2, some t4 =>
      Except.ok (exactVtiRpp V1 V2 V3 V4 p1 p2 θ1
        C1_11 C1_13 C1_33 C1_55 C2_11 C2_13 C2_33 C2_55 t2 s.ts1 t4)
    | _, _ => Except.error Err.typeError

/-- Sequence-level `exact_vti`. -/
def exact_vti (V1 V2 V3 V4 p1 p2 : ℝ) (θs : List ℝ)
    (C1_11 C1_13 C1_33 C1_55 C2_11 C2_13 C2_33 C2_55 : ℝ) :
    Except Err (List PyF) :=
  if V2 = 0 ∨ V4 = 0 ∨ V1 = 0 ∨ p1 = 0 ∨ V3 = 0 ∨ p2 = 0 then
    Except.error Err.zeroDivisionError
  else if ∃ t ∈ θs, (snell1 V1 V2 V3 V4 t).t2 = Option.none ∨
      (snell1 V1 V2 V3 V4 t).ts2 = Option.none then
    Except.error Err.typeError
  else
    mapFormula (fun t => exact_vti1 V1 V2 V3 V4 p1 p2 t
      C1_11 C1_13 C1_33 C1_55 C2_11 C2_13 C2_33 C2_55) θs

/-! ## The elastic impedance transforms, lines 439-463 -/

/-- `elastic_impedance(Vp, Vs, p, theta)`, lines 445-450, with the float
power `**` modelled by the real power `Real.rpow` (they agree for the
positive bases used by every theorem below). -/
def elastic_impedance (Vp Vs p θ : ℝ) : ℝ :=
  let K := (Vs/Vp)^2
  Vp ^ (1 + Real.tan θ^2) * p ^ (1 - 4*K*Real.sin θ^2) *
    Vs ^ (-(8*K*Real.sin θ^2))

/-- `extended_elastic_impedance(Vp, Vs, p, chi, Vp0, Vs0, p0)`,
lines 457-463. -/
def extended_elastic_impedance (Vp Vs p chi Vp0 Vs0 p0 : ℝ) : ℝ :=
  let K := (Vs/Vp)^2
  (Vp0 * p0) * (Vp / Vp0) ^ (Real.cos chi + Real.sin chi) *
    (p / p0) ^ (Real.cos chi - 4*K*Real.sin chi) *
    (Vs / Vs0) ^ (-(8*K*Real.sin chi))

/-! ## Basic lemmas about the float model -/

namespace PyF

@[simp] theorem pv_eq (x : ℝ) : pv x = val x := rfl
@[simp] theorem add_val (a b : ℝ) : val a + val b = val (a + b) := rfl
@[simp] theorem sub_val (a b : ℝ) : val a - val b = val (a - b) := rfl
@[simp] theorem mul_val (a b : ℝ) : val a * val b = val (a * b) := rfl
@[simp] theorem neg_val (a : ℝ) : -(val a) = val (-a) := rfl
@[simp] theorem npow_val (a : ℝ) (n : ℕ) : (val a) ^ n = val (a ^ n) := rfl
@[simp] theorem nan_add (x : PyF) : nan + x = nan := rfl
@[simp] theorem add_nan (x : PyF) : x + nan = nan := by cases x <;> rfl
@[simp] theorem nan_sub (x : PyF) : nan - x = nan := rfl
@[simp] theorem sub_nan (x : PyF) : x - nan = nan := by cases x <;> rfl
@[simp] theorem nan_mul (x : PyF) : nan * x = nan := rfl
@[simp] theorem mul_nan (x : PyF) : x * nan = nan := by cases x <;> rfl
@[simp] theorem nan_div (x : PyF) : nan / x = nan := rfl
@[simp] theorem div_nan (x : PyF) : x / nan = nan := by cases x <;> rfl
@[simp] theorem nan_npow (n : ℕ) : (nan : PyF) ^ n = nan := rfl

@[simp] theorem div_val_of_ne (a b : ℝ) (hb : b ≠ 0) :
    val a / val b = val (a / b) := by
  show div (val a) (val b) = _
  simp [div, hb]

@[simp] theorem div_val_zero (x : PyF) : x / val 0 = nan := by
  cases x <;> simp [HDiv.hDiv, Div.div, div]

@[simp] theorem psin_val (a : ℝ) : psin (val a) = val (Real.sin a) := rfl
@[simp] theorem pcos_val (a : ℝ) : pcos (val a) = val (Real.cos a) := rfl
@[simp] theorem psin_nan : psin nan = nan := rfl
@[simp] theorem pcos_nan : pcos nan = nan := rfl
@[simp] theorem plog_nan : plog nan = nan := rfl
@[simp] theorem psqrt_nan : psqrt nan = nan := rfl
@[simp] theorem parcsin_nan : parcsin nan = nan := rfl
@[simp] theorem parcsin_val (a : ℝ) : parcsin (val a) = np_arcsin a := rfl

@[simp] theorem plog_val_of_pos (a : ℝ) (ha : 0 < a) :
    plog (val a) = val (Real.log a) := by simp [plog, not_le.mpr ha]

@[simp] theorem psqrt_val_of_nonneg (a : ℝ) (ha : 0 ≤ a) :
    psqrt (val a) = val (Real.sqrt a) := by simp [psqrt, not_lt.mpr ha]

@[simp] theorem np_arcsin_of_mem (x : ℝ) (h1 : -1 ≤ x) (h2 : x ≤ 1) :
    np_arcsin x = val (Real.arcsin x) := by
  simp [np_arcsin, not_lt.mpr h1, not_lt.mpr h2]

theorem ptan_val_of_cos_ne (a : ℝ) (h : Real.cos a ≠ 0) :
    ptan (val a) = val (Real.tan a) := by
  simp [ptan, h, Real.tan_eq_sin_div_cos]

@[simp] theorem pyGE_val (a y : ℝ) : pyGE a (val y) ↔ y ≤ a := Iff.rfl
@[simp] theorem pyGE_nan (a : ℝ) : ¬ pyGE a nan := fun h => h

@[simp] theorem val_injEq (a b : ℝ) : (val a = val b) ↔ a = b := by
  constructor
  · intro h; injection h
  · intro h; rw [h]

@[simp] theorem val_ne_nan (a : ℝ) : val a ≠ nan := fun h => by injection h
@[simp] theorem nan_ne_val (a : ℝ) : nan ≠ val a := fun h => by injection h

end PyF

theorem mapFormula_length (f : ℝ → Except Err PyF) :
    ∀ (ts : List ℝ) (out : List PyF),
      mapFormula f ts = Except.ok out → out.length = ts.length := by
  intro ts
  induction ts with
  | nil => intro out h; simp [mapFormula] at h; simp [← h]
  | cons t ts ih =>
    intro out h
    simp only [mapFormula] at h
    cases hf : f t with
    | error e => rw [hf] at h; simp at h
    | ok y =>
      rw [hf] at h
      cases hm : mapFormula f ts with
      | error e => rw [hm] at h; simp at h
      | ok ys =>
        rw [hm] at h
        simp at h
        simp [← h, List.length_cons, ih ys hm]

theorem mapFormula_map (f : ℝ → Except Err PyF) (g : ℝ → PyF)
    (ts : List ℝ) (h : ∀ t ∈ ts, f t = Except.ok (g t)) :
    mapFormula f ts = Except.ok (ts.map g) := by
  induction ts with
  | nil => simp [mapFormula]
  | cons t ts ih =>
    have ht : f t = Except.ok (g t) := h t (by simp)
    have hts : mapFormula f ts = Except.ok (ts.map g) :=
      ih fun u hu => h u (by simp [hu])
    simp [mapFormula, ht, hts]

/-! ## Evaluation lemmas for the ray tracer -/

/-- At normal incidence every branch test fails and all returned angles are
zero, for any positive velocities. -/
theorem snell1_zero (vp1 vp2 vs1 vs2 : ℝ)
    (h1 : 0 < vp1) (h2 : 0 < vp2) (h4 : 0 < vs2) :
    snell1 vp1 vp2 vs1 vs2 0 =
      ⟨some (PyF.val 0), PyF.val 0, some (PyF.val 0), PyF.val 0⟩ := by
  have hg1 : ¬ PyF.pyGE 0 (np_arcsin (vp1 / vp2)) := by
    by_cases hc : vp1 / vp2 < -1 ∨ 1 < vp1 / vp2
    · simp [PyF.np_arcsin, hc]
    · simp only [PyF.np_arcsin, if_neg hc, PyF.pyGE_val, not_le]
      exact Real.arcsin_pos.mpr (div_pos h1 h2)
  have hg2 : ¬ PyF.pyGE 0 (np_arcsin (vp1 / vs2)) := by
    by_cases hc : vp1 / vs2 < -1 ∨ 1 < vp1 / vs2
    · simp [PyF.np_arcsin, hc]
    · simp only [PyF.np_arcsin, if_neg hc, PyF.pyGE_val, not_le]
      exact Real.arcsin_pos.mpr (div_pos h1 h4)
  simp [snell1, hg1, hg2, PyF.pv, h1.ne', Real.arcsin_zero]

/-- For two identical layers (same `vp` on both sides, same `vs`) and a
sub-critical angle `0 <= theta1 < pi/2`, the ray tracer returns the real
transmitted angle `theta1` itself and the common S angle
`arcsin(sin(theta1)/vp*vs)`. -/
theorem snell1_identical (vp vs θ1 : ℝ) (hvs : 0 < vs) (hlt : vs < vp)
    (h0 : 0 ≤ θ1) (h2 : θ1 < Real.pi / 2) :
    snell1 vp vp vs vs θ1 =
      ⟨some (PyF.val θ1), PyF.val (Real.arcsin (Real.sin θ1 / vp * vs)),
       some (PyF.val (Real.arcsin (Real.sin θ1 / vp * vs))),
       PyF.val (Real.sin θ1 / vp)⟩ := by
  have hvp : 0 < vp := hvs.trans hlt
  have hsin0 : 0 ≤ Real.sin θ1 := Real.sin_nonneg_of_nonneg_of_le_pi h0
    (le_trans h2.le (by linarith [Real.pi_pos]))
  have hsin1 : Real.sin θ1 ≤ 1 := Real.sin_le_one θ1
  have hg1 : ¬ PyF.pyGE θ1 (np_arcsin (vp / vp)) := by
    rw [div_self hvp.ne']
    have harc1 : np_arcsin 1 = PyF.val (Real.pi / 2) := by
      norm_num [PyF.np_arcsin, Real.arcsin_one]
    rw [harc1]
    exact not_le.mpr h2
  have hg2 : ¬ PyF.pyGE θ1 (np_arcsin (vp / vs)) := by
    have hone : 1 < vp / vs := (one_lt_div hvs).mpr hlt
    simp [PyF.np_arcsin, hone]
  have hmul : Real.sin θ1 / vp * vp = Real.sin θ1 := div_mul_cancel₀ _ hvp.ne'
  have hb1 : -1 ≤ Real.sin θ1 / vp * vs := by
    have hnn : (0:ℝ) ≤ Real.sin θ1 / vp * vs := by positivity
    linarith
  have hb2 : Real.sin θ1 / vp * vs ≤ 1 := by
    have hstep : Real.sin θ1 / vp * vs ≤ vs / vp :=
      calc Real.sin θ1 / vp * vs = Real.sin θ1 * (vs / vp) := by ring
        _ ≤ 1 * (vs / vp) := by
            exact mul_le_mul_of_nonneg_right hsin1 (by positivity)
        _ = vs / vp := one_mul _
    exact hstep.trans (le_of_lt ((div_lt_one hvp).mpr hlt))
  have harc : Real.arcsin (Real.sin θ1) = θ1 :=
    Real.arcsin_sin (by linarith [Real.pi_pos]) h2.le
  simp only [snell1]
  rw [if_neg hg1, if_neg hg2]
  simp [PyF.pv, hvp.ne', hmul, hb1, hb2, Real.neg_one_le_sin, hsin1, harc]

/-! ## Linear-algebra helper for the exact solver -/

/-- Reading one entry of the first column of `M^-1 * N` off an explicit
solution `z` of the linear system `M z = first column of N`. -/
theorem invMulEntry (M N : Matrix (Fin 4) (Fin 4) ℝ) (z : Fin 4 → ℝ)
    (hdet : M.det ≠ 0) (hz : M.mulVec z = fun j => N j 0) (i : Fin 4) :
    (M⁻¹ * N) i 0 = z i := by
  have h1 : (M⁻¹ * N) i 0 = (M⁻¹.mulVec fun j => N j 0) i := by
    simp [Matrix.mul_apply, Matrix.mulVec, Matrix.dotProduct]
  rw [h1, ← hz, Matrix.mulVec_mulVec,
    Matrix.nonsing_inv_mul M (isUnit_iff_ne_zero.mpr hdet),
    Matrix.one_mulVec]

/-- The exact Zoeppritz solve at normal incidence: the boundary system
decouples and the first column of `Z = M^-1 N` is
`((Z2-Z1)/(Z1+Z2), 0, 2 Z1/(Z1+Z2), 0)` with the impedances
`Z1 = rho1 vp1`, `Z2 = rho2 vp2`. -/
theorem zoeppritzFull1_zero (vp1 vs1 rho1 vp2 vs2 rho2 : ℝ)
    (h1 : 0 < vp1) (h2 : 0 < vs1) (h3 : 0 < rho1)
    (h4 : 0 < vp2) (h5 : 0 < vs2) (h6 : 0 < rho2) :
    zoeppritzFull1 vp1 vs1 rho1 vp2 vs2 rho2 0 =
      Except.ok (PyF.val ((rho2*vp2 - rho1*vp1)/(rho1*vp1 + rho2*vp2)),
        PyF.val 0, PyF.val (2*(rho1*vp1)/(rho1*vp1 + rho2*vp2)),
        PyF.val 0) := by
  have hs := snell1_zero vp1 vp2 vs1 vs2 h1 h4 h5
  have hZ : rho1*vp1 + rho2*vp2 ≠ 0 := by positivity
  have hMval : Mzoe vp1 vs1 rho1 vp2 vs2 rho2 0 0 0 0 =
      !![0, -1, 0, 1; 1, 0, 1, 0; 0, rho2*vs1, 0, rho2*vs2;
         -(rho1*vp1), 0, rho2*vp2, 0] := by
    simp [Mzoe]
  have hdet : (Mzoe vp1 vs1 rho1 vp2 vs2 rho2 0 0 0 0).det =
      -((rho2*vs1 + rho2*vs2) * (rho1*vp1 + rho2*vp2)) := by
    rw [hMval]
    norm_num [Matrix.det_succ_row_zero, Fin.sum_univ_succ, Fin.succAbove,
      Matrix.cons_val_zero, Matrix.cons_val_one, Matrix.head_cons,
      Matrix.cons_val_two, Matrix.cons_val_three, Fin.castSucc, Fin.castAdd,
      Fin.castLE, Matrix.cons_val_succ, Fin.lt_def, Fin.val_succ]
    ring
  have hdetne : (Mzoe vp1 vs1 rho1 vp2 vs2 rho2 0 0 0 0).det ≠ 0 := by
    rw [hdet]
    have hpos : 0 < (rho2*vs1 + rho2*vs2) * (rho1*vp1 + rho2*vp2) := by positivity
    exact neg_ne_zero.mpr hpos.ne'
  have hz : (Mzoe vp1 vs1 rho1 vp2 vs2 rho2 0 0 0 0).mulVec
      ![(rho2*vp2 - rho1*vp1)/(rho1*vp1 + rho2*vp2), 0,
        2*(rho1*vp1)/(rho1*vp1 + rho2*vp2), 0] =
      fun j => Nzoe vp1 vs1 rho1 vp2 vs2 rho2 0 0 0 0 j 0 := by
    funext j
    fin_cases j <;>
      simp [hMval, Nzoe, Matrix.mulVec, Matrix.dotProduct, Fin.sum_univ_four] <;>
      field_simp <;> ring
  have he := fun i => invMulEntry
    (Mzoe vp1 vs1 rho1 vp2 vs2 rho2 0 0 0 0)
    (Nzoe vp1 vs1 rho1 vp2 vs2 rho2 0 0 0 0)
    ![(rho2*vp2 - rho1*vp1)/(rho1*vp1 + rho2*vp2), 0,
      2*(rho1*vp1)/(rho1*vp1 + rho2*vp2), 0] hdetne hz i
  simp only [zoeppritzFull1, hs]
  rw [if_neg hdetne]
  rw [he 0, he 1, he 2, he 3]
  simp

/-- If the first column of `N` equals the third column of `M`, the exact
solve returns `Rpp = 0` (the transmitted-P column solves the system). -/
theorem invMulEntry_col2 (M N : Matrix (Fin 4) (Fin 4) ℝ) (hdet : M.det ≠ 0)
    (hcol : ∀ j, N j 0 = M j 2) : (M⁻¹ * N) 0 0 = 0 := by
  have h1 : (M⁻¹ * N) 0 0 = (M⁻¹ * M) 0 2 := by
    rw [Matrix.mul_apply, Matrix.mul_apply]
    exact Finset.sum_congr rfl fun j _ => by rw [hcol j]
  rw [h1, Matrix.nonsing_inv_mul M (isUnit_iff_ne_zero.mpr hdet)]
  simp [Matrix.one_apply]

/-- For identical layers the exact Zoeppritz Rpp is zero whenever the solve
succeeds: the first column of `N` coincides with the transmitted-P column of
`M`, so the solution is a pure transmission. -/
theorem zoeppritz1_identical (vp vs rho θ1 : ℝ) (hvs : 0 < vs) (hlt : vs < vp)
    (h0 : 0 ≤ θ1) (h2 : θ1 < Real.pi / 2) (r : PyF)
    (hok : zoeppritz1 vp vs rho vp vs rho θ1 = Except.ok r) :
    r = PyF.val 0 := by
  have hs := snell1_identical vp vs θ1 hvs hlt h0 h2
  have hcol : ∀ j, Nzoe vp vs rho vp vs rho θ1
      (Real.arcsin (Real.sin θ1 / vp * vs)) θ1
      (Real.arcsin (Real.sin θ1 / vp * vs)) j 0 =
      Mzoe vp vs rho vp vs rho θ1
      (Real.arcsin (Real.sin θ1 / vp * vs)) θ1
      (Real.arcsin (Real.sin θ1 / vp * vs)) j 2 := by
    intro j
    fin_cases j <;> simp [Mzoe, Nzoe]
  unfold zoeppritz1 at hok
  cases hfull : zoeppritzFull1 vp vs rho vp vs rho θ1 with
  | error e => rw [hfull] at hok; exact absurd hok (by simp [Except.map])
  | ok q =>
    rw [hfull] at hok
    simp [Except.map] at hok
    simp only [zoeppritzFull1, hs] at hfull
    by_cases hd : (Mzoe vp vs rho vp vs rho θ1
        (Real.arcsin (Real.sin θ1 / vp * vs)) θ1
        (Real.arcsin (Real.sin θ1 / vp * vs))).det = 0
    · rw [if_pos hd] at hfull
      exact absurd hfull (by simp)
    · rw [if_neg hd] at hfull
      have h00 := invMulEntry_col2 _ _ hd hcol
      injection hfull with h'
      rw [← hok, ← h']
      simp [h00]

/-! ## Evaluation of the approximations at normal incidence -/

/-- The normal-incidence value of the Shuey approximation: the intercept
`A = (dvp/vp + drho/rho)/2` in layer averages. -/
theorem shuey1_zero (vp1 vs1 rho1 vp2 vs2 rho2 : ℝ)
    (h1 : 0 < vp1) (h2 : 0 < vs1) (h3 : 0 < rho1)
    (h4 : 0 < vp2) (h5 : 0 < vs2) (h6 : 0 < rho2) :
    shuey1 vp1 vs1 rho1 vp2 vs2 rho2 0 =
      Except.ok (PyF.val ((1/2)*((vp2 - vp1)/((vp1 + vp2)/2) +
        (rho2 - rho1)/((rho1 + rho2)/2)))) := by
  have hs := snell1_zero vp1 vp2 vs1 vs2 h1 h4 h5
  have hvp : (vp1 + vp2)/2 ≠ 0 := by positivity
  have hrho : (rho1 + rho2)/2 ≠ 0 := by positivity
  have hvs : (vs1 + vs2)/2 ≠ 0 := by positivity
  simp only [shuey1, hs]
  rw [if_neg (by push_neg; exact ⟨hvp, hrho, hvs⟩)]
  norm_num [PyF.pv, PyF.ptan, Real.sin_zero, Real.cos_zero]

/-- The normal-incidence value of the Aki-Richards approximation: the same
linearised normal-incidence coefficient as Shuey. -/
theorem aki_richards1_zero (vp1 vs1 rho1 vp2 vs2 rho2 : ℝ)
    (h1 : 0 < vp1) (h2 : 0 < vs1) (h3 : 0 < rho1)
    (h4 : 0 < vp2) (h5 : 0 < vs2) (h6 : 0 < rho2) :
    aki_richards1 vp1 vs1 rho1 vp2 vs2 rho2 0 =
      Except.ok (PyF.val ((1/2)*((vp2 - vp1)/((vp1 + vp2)/2) +
        (rho2 - rho1)/((rho1 + rho2)/2)))) := by
  have hs := snell1_zero vp1 vp2 vs1 vs2 h1 h4 h5
  have hvp : (vp1 + vp2)/2 ≠ 0 := by positivity
  have hrho : (rho1 + rho2)/2 ≠ 0 := by positivity
  have hvs : (vs1 + vs2)/2 ≠ 0 := by positivity
  simp only [aki_richards1, hs]
  rw [if_neg hrho]
  norm_num [PyF.pv, Real.sin_zero, Real.cos_zero, hvp, hvs]
  field_simp
  ring

/-! ## Evaluation of the approximations on identical layers -/

/-- Shuey on two identical layers: all three coefficients vanish. -/
theorem shuey1_identical (vp vs rho θ1 : ℝ) (hvs : 0 < vs) (hlt : vs < vp)
    (hrho : 0 < rho) (h0 : 0 ≤ θ1) (h2 : θ1 < Real.pi / 2) :
    shuey1 vp vs rho vp vs rho θ1 = Except.ok (PyF.val 0) := by
  have hs := snell1_identical vp vs θ1 hvs hlt h0 h2
  have hvp : 0 < vp := hvs.trans hlt
  have hcos : Real.cos θ1 ≠ 0 :=
    (Real.cos_pos_of_mem_Ioo ⟨by linarith [Real.pi_pos], h2⟩).ne'
  have hth : (θ1 + θ1)/2 = θ1 := by ring
  simp only [shuey1, hs]
  rw [if_neg (by push_neg; exact ⟨by positivity, by positivity, by positivity⟩)]
  norm_num [PyF.ptan, hth, hcos]

/-- Aki-Richards on two identical layers: every contrast term vanishes. -/
theorem aki_richards1_identical (vp vs rho θ1 : ℝ) (hvs : 0 < vs)
    (hlt : vs < vp) (hrho : 0 < rho) (h0 : 0 ≤ θ1) (h2 : θ1 < Real.pi / 2) :
    aki_richards1 vp vs rho vp vs rho θ1 = Except.ok (PyF.val 0) := by
  have hs := snell1_identical vp vs θ1 hvs hlt h0 h2
  have hvp : 0 < vp := hvs.trans hlt
  have hcos : Real.cos θ1 ≠ 0 :=
    (Real.cos_pos_of_mem_Ioo ⟨by linarith [Real.pi_pos], h2⟩).ne'
  have hth : (θ1 + θ1)/2 = θ1 := by ring
  have hden : 2*Real.cos θ1^2*vp ≠ 0 :=
    mul_ne_zero (mul_ne_zero two_ne_zero (pow_ne_zero 2 hcos)) hvp.ne'
  simp only [aki_richards1, hs]
  rw [if_neg (by positivity : (rho + rho)/2 ≠ 0)]
  norm_num [hth, hden, hcos, hvs.ne', hvp.ne']

/-- Ruger VTI on two fully identical layers (same elastic constants and the
same Thomsen parameters): every contrast vanishes. -/
theorem ruger_vti1_identical (Vp Vs rho e d θ1 : ℝ) (hvs : 0 < Vs)
    (hlt : Vs < Vp) (hrho : 0 < rho) (h0 : 0 ≤ θ1) (h2 : θ1 < Real.pi / 2) :
    ruger_vti1 Vp Vs rho e d Vp Vs rho e d θ1 = Except.ok (PyF.val 0) := by
  have hs := snell1_identical Vp Vs θ1 hvs hlt h0 h2
  have hvp : 0 < Vp := hvs.trans hlt
  have hcos : Real.cos θ1 ≠ 0 :=
    (Real.cos_pos_of_mem_Ioo ⟨by linarith [Real.pi_pos], h2⟩).ne'
  simp only [ruger_vti1, hs]
  rw [if_neg (by push_neg; exact ⟨by positivity, by positivity, by positivity⟩)]
  norm_num [rugerVtiCore, PyF.ptan, hcos]

/-- Bortfeld whenever the two shear velocities are equal and the per-angle
transmitted P angle is a float (not `None`): the division by
`log(vs2/vs1) = 0` makes the whole expression a non-finite float, so the
call returns NaN rather than raising anything. -/
theorem bortfeld1_vs_eq (vp1 vs rho1 vp2 rho2 θ1 : ℝ) (hvs : vs ≠ 0)
    (hrho1 : rho1 ≠ 0) (t2 : PyF)
    (ht : (snell1 vp1 vp2 vs vs θ1).t2 = some t2) :
    bortfeld1 vp1 vs rho1 vp2 vs rho2 θ1 = Except.ok PyF.nan := by
  simp only [bortfeld1, ht]
  rw [if_neg (by push_neg; exact ⟨hrho1, hvs⟩)]
  simp [div_self hvs, Real.log_one]

/-- Concrete post-critical evaluation of the ray tracer, used for C1:
with `vp1 = 1, vp2 = 4, vs1 = 1/2, vs2 = 2` the second critical angle is
`arcsin(1/2)`, and at `theta1 = arcsin(1/2)` exactly (so `theta1` is in the
claimed fully-evanescent regime) the code returns `theta2 = None` but
`thetas2 = arcsin(1) = pi/2`, a real angle, not a no-value marker. -/
theorem snell1_postcritical_concrete :
    PyF.pyGE (Real.arcsin (1/2)) (np_arcsin (1/2)) ∧
    snell1 1 4 (1/2) 2 (Real.arcsin (1/2)) =
      ⟨Option.none, PyF.val (Real.arcsin (1/4)), some (PyF.val (Real.pi/2)),
       PyF.val (1/2)⟩ := by
  constructor
  · rw [PyF.np_arcsin_of_mem (1/2) (by norm_num) (by norm_num)]
    exact le_refl _
  · have hge1 : PyF.pyGE (Real.arcsin (1/2)) (np_arcsin (1/4)) := by
      rw [PyF.np_arcsin_of_mem (1/4) (by norm_num) (by norm_num)]
      exact Real.monotone_arcsin (by norm_num)
    simp only [snell1]
    rw [if_pos hge1]
    norm_num [Real.sin_arcsin, Real.arcsin_one]

/-! ## The thomsen/Cij round trip -/

@[simp] theorem VTImat_00 (c11 c33 c13 c55 c66 : ℝ) :
    VTImat c11 c33 c13 c55 c66 0 0 = c11 := rfl
@[simp] theorem VTImat_22 (c11 c33 c13 c55 c66 : ℝ) :
    VTImat c11 c33 c13 c55 c66 2 2 = c33 := rfl
@[simp] theorem VTImat_44 (c11 c33 c13 c55 c66 : ℝ) :
    VTImat c11 c33 c13 c55 c66 4 4 = c55 := rfl
@[simp] theorem VTImat_55 (c11 c33 c13 c55 c66 : ℝ) :
    VTImat c11 c33 c13 c55 c66 5 5 = c66 := rfl
@[simp] theorem VTImat_02 (c11 c33 c13 c55 c66 : ℝ) :
    VTImat c11 c33 c13 c55 c66 0 2 = c13 := rfl

/-- The Thomsen parameters of a `Cij`-shaped stiffness matrix. -/
theorem thomsen1_VTImat (c11 c33 c13 c55 c66 : ℝ)
    (h33 : c33 ≠ 0) (h55 : c55 ≠ 0) (hdiff : c33 - c55 ≠ 0) :
    thomsen1 (VTImat c11 c33 c13 c55 c66) =
      Except.ok ((c11 - c33)/(2*c33),
        (c13 + 2*c55 - c33)*(c13 + c33)/(2*c33*(c33 - c55)),
        (c66 - c55)/(2*c55),
        ((c13 + c55)^2 - (c33 - c55)^2)/(2*c33*(c33 - c55))) := by
  unfold thomsen1
  simp only [VTImat_00, VTImat_22, VTImat_44, VTImat_55, VTImat_02]
  rw [if_neg h33, if_neg h55, if_neg hdiff]

set_option maxHeartbeats 3000000 in
/-- C6 core computation: the round trip on a `Cij`-shaped stiffness matrix
with `0 < C55 < C33` and a positive density, given the value of the square
root in `Cij` (the sign of `C13 + C55` decides which `c13p` comes back). -/
theorem roundTrip_VTImat_sqrt (c11 c33 c13 c55 c66 ρ c13p : ℝ) (hρ : 0 < ρ)
    (h55 : 0 < c55) (h35 : c55 < c33)
    (hsq : Real.sqrt (1 + 2*((c13 + 2*c55 - c33)*(c13 + c33)/
      (2*c33*(c33 - c55)))/((c33 - c55)/c33)) = (c13p + c55)/(c33 - c55)) :
    roundTrip (VTImat c11 c33 c13 c55 c66) ρ =
      Except.ok (VTImat c11 c33 c13p c55 c66) := by
  have h33 : 0 < c33 := h55.trans h35
  have hdiff : c33 - c55 ≠ 0 := sub_ne_zero.mpr h35.ne'
  have hVp2 : Real.sqrt (c33/ρ)^2 = c33/ρ :=
    Real.sq_sqrt (le_of_lt (div_pos h33 hρ))
  have hVs2 : Real.sqrt (c55/ρ)^2 = c55/ρ :=
    Real.sq_sqrt (le_of_lt (div_pos h55 hρ))
  have hVpne : Real.sqrt (c33/ρ) ≠ 0 :=
    (Real.sqrt_pos.mpr (div_pos h33 hρ)).ne'
  have hfval : 1 - (Real.sqrt (c55/ρ)/Real.sqrt (c33/ρ))^2 =
      (c33 - c55)/c33 := by
    rw [div_pow, hVp2, hVs2]
    field_simp
  have hρVp2 : ρ*Real.sqrt (c33/ρ)^2 = c33 := by
    rw [hVp2]
    field_simp
  have hth := thomsen1_VTImat c11 c33 c13 c55 c66 h33.ne' h55.ne' hdiff
  simp only [roundTrip, hth, VTImat_22, VTImat_44]
  unfold Cij1
  rw [if_neg hVpne, if_neg (by rw [hfval]; exact div_ne_zero hdiff h33.ne')]
  refine congrArg Except.ok ?_
  apply Matrix.ext
  intro i j
  fin_cases i <;> fin_cases j <;>
    simp only [CijM, VTImat, Matrix.of_apply, hfval, hsq, hρVp2] <;>
    first
      | rfl
      | (field_simp; try ring)

/-- C6 helper, nonnegative branch: with `C13 + C55 >= 0` the round trip
reproduces the matrix exactly. -/
theorem roundTrip_VTImat (c11 c33 c13 c55 c66 ρ : ℝ) (hρ : 0 < ρ)
    (h55 : 0 < c55) (h35 : c55 < c33) (h13 : 0 ≤ c13 + c55) :
    roundTrip (VTImat c11 c33 c13 c55 c66) ρ =
      Except.ok (VTImat c11 c33 c13 c55 c66) := by
  refine roundTrip_VTImat_sqrt c11 c33 c13 c55 c66 ρ c13 hρ h55 h35 ?_
  have h33 : 0 < c33 := h55.trans h35
  have hdiff : c33 - c55 ≠ 0 := sub_ne_zero.mpr h35.ne'
  have hrad : 1 + 2*((c13 + 2*c55 - c33)*(c13 + c33)/(2*c33*(c33 - c55)))/
      ((c33 - c55)/c33) = ((c13 + c55)/(c33 - c55))^2 := by
    field_simp
    ring
  rw [hrad]
  exact Real.sqrt_sq (div_nonneg h13 (le_of_lt (sub_pos.mpr h35)))

/-- C6 helper, negative branch: with `C13 + C55 < 0` the square root picks
the other sign of `C13 + C55` and the round trip returns
`-C13 - 2 C55` in place of `C13`. -/
theorem roundTrip_VTImat_neg (c11 c33 c13 c55 c66 ρ : ℝ) (hρ : 0 < ρ)
    (h55 : 0 < c55) (h35 : c55 < c33) (h13 : c13 + c55 ≤ 0) :
    roundTrip (VTImat c11 c33 c13 c55 c66) ρ =
      Except.ok (VTImat c11 c33 (-c13 - 2*c55) c55 c66) := by
  refine roundTrip_VTImat_sqrt c11 c33 c13 c55 c66 ρ (-c13 - 2*c55) hρ h55 h35 ?_
  have h33 : 0 < c33 := h55.trans h35
  have hdiff : c33 - c55 ≠ 0 := sub_ne_zero.mpr h35.ne'
  have hrad : 1 + 2*((c13 + 2*c55 - c33)*(c13 + c33)/(2*c33*(c33 - c55)))/
      ((c33 - c55)/c33) = ((-c13 - 2*c55 + c55)/(c33 - c55))^2 := by
    field_simp
    ring
  rw [hrad]
  exact Real.sqrt_sq (div_nonneg (by linarith) (le_of_lt (sub_pos.mpr h35)))

/-! ## The claims -/

/-- C1: with `Vp2 > Vp1` the claim says that for `theta1 >= theta_crit2`
both transmitted angles are the designated no-value marker.  In the code
the `theta1 >= theta_crit_1` branch is tested first and therefore captures
the whole post-critical range, so the `theta_crit_2` branch is dead: at
`vp1 = 1, vp2 = 4, vs1 = 1/2, vs2 = 2` and `theta1 = arcsin(1/2)` (equal to
`theta_crit2 = arcsin(vp1/vs2)`, hence in the claimed fully-evanescent
regime) the code returns `theta2 = None` but `thetas2 = arcsin(1) = pi/2`,
a real angle and not a marker. -/
theorem C1_thetas2_real_at_postcritical :
    PyF.pyGE (Real.arcsin (1/2)) (np_arcsin (1/2)) ∧
    (snell1 1 4 (1/2) 2 (Real.arcsin (1/2))).t2 = Option.none ∧
    (snell1 1 4 (1/2) 2 (Real.arcsin (1/2))).ts2 =
      some (PyF.val (Real.pi/2)) := by
  refine ⟨snell1_postcritical_concrete.1, ?_, ?_⟩ <;>
    rw [snell1_postcritical_concrete.2]

/-- C2: `zoeppritz` computes the full quadruple `(Rpp, Rps, Tpp, Tps)` per
angle but line 150 returns only `Rpp`.  At the concrete input below the
computed quadruple is `(3/5, 0, 2/5, 0)` while the caller receives only
`3/5`: the transmission coefficients are discarded, contradicting the claim
that all four are exposed. -/
theorem C2_only_rpp_returned :
    zoeppritzFull1 2 1 1 4 2 2 0 =
      Except.ok (PyF.val (3/5), PyF.val 0, PyF.val (2/5), PyF.val 0) ∧
    zoeppritz1 2 1 1 4 2 2 0 = Except.ok (PyF.val (3/5)) := by
  have h := zoeppritzFull1_zero 2 1 1 4 2 2 (by norm_num) (by norm_num)
    (by norm_num) (by norm_num) (by norm_num) (by norm_num)
  norm_num at h
  refine ⟨h, ?_⟩
  unfold zoeppritz1
  rw [h]
  rfl

/-- C3 counterexample: on two identical layers `(2, 1, 1)` at normal
incidence the Bortfeld formula divides `log(rho2/rho1)` by
`log(vs2/vs1) = log 1 = 0` and returns NaN, not the claimed 0. -/
theorem C3_bortfeld_counterexample :
    bortfeld1 2 1 1 2 1 1 0 = Except.ok PyF.nan ∧
    (Except.ok PyF.nan : Except Err PyF) ≠ Except.ok (PyF.val 0) := by
  refine ⟨?_, by simp⟩
  apply bortfeld1_vs_eq 2 1 1 2 1 0 (by norm_num) (by norm_num) (PyF.val 0)
  rw [snell1_zero 2 2 1 1 (by norm_num) (by norm_num) (by norm_num)]

/-- C3 (amended): on identical layers every angle below `pi/2` gives a zero
reflection coefficient for Shuey, Aki-Richards and Ruger VTI; the exact
Zoeppritz solve gives 0 whenever it succeeds; Bortfeld however returns NaN
(its formula divides by `log(vs2/vs1) = 0`), not 0. -/
theorem C3_identical_layers (vp vs rho e d θ1 : ℝ) (hvs : 0 < vs)
    (hlt : vs < vp) (hrho : 0 < rho) (h0 : 0 ≤ θ1) (h2 : θ1 < Real.pi/2) :
    shuey1 vp vs rho vp vs rho θ1 = Except.ok (PyF.val 0) ∧
    aki_richards1 vp vs rho vp vs rho θ1 = Except.ok (PyF.val 0) ∧
    ruger_vti1 vp vs rho e d vp vs rho e d θ1 = Except.ok (PyF.val 0) ∧
    (∀ r, zoeppritz1 vp vs rho vp vs rho θ1 = Except.ok r → r = PyF.val 0) ∧
    bortfeld1 vp vs rho vp vs rho θ1 = Except.ok PyF.nan := by
  refine ⟨shuey1_identical vp vs rho θ1 hvs hlt hrho h0 h2,
    aki_richards1_identical vp vs rho θ1 hvs hlt hrho h0 h2,
    ruger_vti1_identical vp vs rho e d θ1 hvs hlt hrho h0 h2,
    fun r hr => zoeppritz1_identical vp vs rho θ1 hvs hlt h0 h2 r hr, ?_⟩
  apply bortfeld1_vs_eq vp vs rho vp rho θ1 hvs.ne' hrho.ne' (PyF.val θ1)
  rw [snell1_identical vp vs θ1 hvs hlt h0 h2]

/-- C3 witness at layers `(2, 1, 1)` and normal incidence. -/
theorem C3_witness : shuey1 2 1 1 2 1 1 0 = Except.ok (PyF.val 0) :=
  (C3_identical_layers 2 1 1 0 0 0 (by norm_num) (by norm_num) (by norm_num)
    (le_refl 0) (by positivity)).1

/-- C4 counterexample: for layers `(1, 1/2, 1)` over `(2, 1/2, 2)` at
normal incidence, Shuey returns `2/3` while the exact Zoeppritz Rpp (and
the exact coefficient `(Z2-Z1)/(Z2+Z1)`) is `3/5`; they differ by `1/15`,
far beyond any numeric tolerance. -/
theorem C4_counterexample :
    shuey1 1 (1/2) 1 2 (1/2) 2 0 = Except.ok (PyF.val (2/3)) ∧
    zoeppritz1 1 (1/2) 1 2 (1/2) 2 0 = Except.ok (PyF.val (3/5)) ∧
    ((2*2 - 1*1)/(2*2 + 1*1) : ℝ) = 3/5 ∧
    (1/100 : ℝ) < |(2/3 : ℝ) - 3/5| := by
  refine ⟨?_, ?_, by norm_num, by rw [abs_of_pos] <;> norm_num⟩
  · have h := shuey1_zero 1 (1/2) 1 2 (1/2) 2 (by norm_num) (by norm_num)
      (by norm_num) (by norm_num) (by norm_num) (by norm_num)
    norm_num at h
    exact h
  · have h := zoeppritzFull1_zero 1 (1/2) 1 2 (1/2) 2 (by norm_num)
      (by norm_num) (by norm_num) (by norm_num) (by norm_num) (by norm_num)
    norm_num at h
    unfold zoeppritz1
    rw [h]
    rfl

/-- C4 (amended): at normal incidence Shuey and Aki-Richards agree exactly,
both equal to the linearised coefficient `(dVp/Vp + drho/rho)/2` in layer
averages, while the exact Zoeppritz Rpp equals `(Z2-Z1)/(Z1+Z2)`; the
approximations match the exact value only to first order in the contrasts,
not within a numeric tolerance for every valid layer pair. -/
theorem C4_normal_incidence (vp1 vs1 rho1 vp2 vs2 rho2 : ℝ)
    (h1 : 0 < vp1) (h2 : 0 < vs1) (h3 : 0 < rho1)
    (h4 : 0 < vp2) (h5 : 0 < vs2) (h6 : 0 < rho2) :
    shuey1 vp1 vs1 rho1 vp2 vs2 rho2 0 =
      Except.ok (PyF.val ((1/2)*((vp2 - vp1)/((vp1 + vp2)/2) +
        (rho2 - rho1)/((rho1 + rho2)/2)))) ∧
    aki_richards1 vp1 vs1 rho1 vp2 vs2 rho2 0 =
      shuey1 vp1 vs1 rho1 vp2 vs2 rho2 0 ∧
    zoeppritz1 vp1 vs1 rho1 vp2 vs2 rho2 0 =
      Except.ok (PyF.val ((rho2*vp2 - rho1*vp1)/(rho1*vp1 + rho2*vp2))) := by
  have hs := shuey1_zero vp1 vs1 rho1 vp2 vs2 rho2 h1 h2 h3 h4 h5 h6
  have ha := aki_richards1_zero vp1 vs1 rho1 vp2 vs2 rho2 h1 h2 h3 h4 h5 h6
  have hz := zoeppritzFull1_zero vp1 vs1 rho1 vp2 vs2 rho2 h1 h2 h3 h4 h5 h6
  refine ⟨hs, by rw [hs, ha], ?_⟩
  unfold zoeppritz1
  rw [hz]
  rfl

/-- C4 witness at layers `(2, 1, 1)` over `(4, 2, 2)`. -/
theorem C4_witness :
    zoeppritz1 2 1 1 4 2 2 0 =
      Except.ok (PyF.val ((2*4 - 1*2)/(1*2 + 2*4))) :=
  (C4_normal_incidence 2 1 1 4 2 2 (by norm_num) (by norm_num) (by norm_num)
    (by norm_num) (by norm_num) (by norm_num)).2.2

/-- C5: the claim says `exact_hti` returns `R[0][0]` of the
inverse-impedance matrix algebra.  The code never gets there: line 485
references the unbound name `p` and raises NameError on every call whose
`Cij` preamble succeeds (and lines 529-531 use `np.invert`, bitwise
inversion, with elementwise `*`, not matrix algebra, so the claimed
computation is absent from the code). -/
theorem C5_exact_hti_raises (vp1 vs1 p1 e1 d1 y1 vp2 vs2 p2 e2 d2 y2 θ1 : ℝ)
    (h1 : vp1 ≠ 0) (h2 : vs1 ≠ 0) (hf1 : 1 - (vs1/vp1)^2 ≠ 0)
    (h3 : vp2 ≠ 0) (hf2 : 1 - (vs2/vp2)^2 ≠ 0) :
    exact_hti1 vp1 vs1 p1 e1 d1 y1 vp2 vs2 p2 e2 d2 y2 θ1 =
      Except.error Err.nameError := by
  unfold exact_hti1 Cij1
  rw [if_neg h1, if_neg hf1, if_neg h3, if_neg hf2]
  simp [h2]

/-- C5 witness at a fully concrete valid input. -/
theorem C5_witness :
    exact_hti1 2 1 1 0 0 0 4 2 2 0 0 0 (1/2) = Except.error Err.nameError :=
  C5_exact_hti_raises 2 1 1 0 0 0 4 2 2 0 0 0 (1/2) (by norm_num)
    (by norm_num) (by norm_num) (by norm_num) (by norm_num)

/-- C6 counterexample: the tensor with `(C11, C33, C13, C55, C66) =
(10, 4, -3, 1, 1)` satisfies `C33 > C55 > 0` (and is positive definite),
but the round trip returns `C13 = |C13 + C55| - C55 = 1`, not `-3`. -/
theorem C6_counterexample :
    roundTrip (VTImat 10 4 (-3) 1 1) 1 ≠
      Except.ok (VTImat 10 4 (-3) 1 1) := by
  have h := roundTrip_VTImat_neg 10 4 (-3) 1 1 1 (by norm_num) (by norm_num)
    (by norm_num) (by norm_num)
  rw [h]
  intro hc
  injection hc with hc'
  have h02 := congrFun (congrFun hc' 0) 2
  simp only [VTImat_02] at h02
  norm_num at h02

/-- C6 (amended): for every `Cij`-shaped stiffness matrix with
`C33 > C55 > 0`, positive density, and additionally `C13 + C55 >= 0` (the
square root in `Cij` reconstructs `|C13 + C55| - C55`, so the sign
condition is necessary), the round trip `Cij(thomsen(C))` with the matching
vertical velocities reproduces `C` exactly. -/
theorem C6_roundtrip (c11 c33 c13 c55 c66 ρ : ℝ) (hρ : 0 < ρ)
    (h55 : 0 < c55) (h35 : c55 < c33) (h13 : 0 ≤ c13 + c55) :
    roundTrip (VTImat c11 c33 c13 c55 c66) ρ =
      Except.ok (VTImat c11 c33 c13 c55 c66) :=
  roundTrip_VTImat c11 c33 c13 c55 c66 ρ hρ h55 h35 h13

/-- C6 witness on a concrete valid tensor. -/
theorem C6_witness :
    roundTrip (VTImat 10 4 0 1 1) 1 = Except.ok (VTImat 10 4 0 1 1) :=
  C6_roundtrip 10 4 0 1 1 1 (by norm_num) (by norm_num) (by norm_num)
    (by norm_num)

/-- C7 counterexample: with `vs1 = vs2 = 1` (other inputs valid) Bortfeld
returns normally with a NaN value; it does not fail with DomainError or any
other exception. -/
theorem C7_counterexample :
    bortfeld1 2 1 1 4 1 2 0 = Except.ok PyF.nan := by
  apply bortfeld1_vs_eq 2 1 1 4 2 0 (by norm_num) (by norm_num) (PyF.val 0)
  rw [snell1_zero 2 4 1 1 (by norm_num) (by norm_num) (by norm_num)]

/-- C7 (amended): when `vs1 = vs2` (nonzero), `bortfeld` never raises a
DomainError; whenever it returns a value at all, that value is NaN, because
the formula divides by `log(vs2/vs1) = 0`. -/
theorem C7_vs_equal_nan (vp1 vs1 rho1 vp2 vs2 rho2 θ1 : ℝ)
    (hvs : vs1 ≠ 0) (heq : vs2 = vs1) :
    bortfeld1 vp1 vs1 rho1 vp2 vs2 rho2 θ1 ≠
      Except.error Err.domainError ∧
    (∀ r, bortfeld1 vp1 vs1 rho1 vp2 vs2 rho2 θ1 = Except.ok r →
      r = PyF.nan) := by
  rw [heq]
  cases h : (snell1 vp1 vp2 vs1 vs1 θ1).t2 with
  | none =>
    simp only [bortfeld1, h]
    exact ⟨by simp, fun r hr => by simp at hr⟩
  | some t2 =>
    simp only [bortfeld1, h]
    by_cases hg : rho1 = 0 ∨ vs1 = 0
    · rw [if_pos hg]
      exact ⟨by simp, fun r hr => by simp at hr⟩
    · rw [if_neg hg]
      refine ⟨by simp, fun r hr => ?_⟩
      injection hr with hr'
      rw [← hr']
      simp [div_self hvs, Real.log_one]

/-- C7 witness: the no-DomainError conclusion at a concrete input. -/
theorem C7_witness :
    bortfeld1 2 1 1 4 1 2 0 ≠ Except.error Err.domainError :=
  (C7_vs_equal_nan 2 1 1 4 1 2 0 (by norm_num) rfl).1

/-- C8: with `chi = 0` and reference constants equal to the medium
constants, the extended elastic impedance reduces to the elastic impedance
at normal incidence (both equal `Vp * rho`). -/
theorem C8_eei_reduces_to_ei (Vp Vs p : ℝ)
    (hVp : 0 < Vp) (hVs : 0 < Vs) (hp : 0 < p) :
    extended_elastic_impedance Vp Vs p 0 Vp Vs p =
      elastic_impedance Vp Vs p 0 := by
  unfold extended_elastic_impedance elastic_impedance
  norm_num [Real.tan_zero, div_self hVp.ne', div_self hVs.ne',
    div_self hp.ne', Real.one_rpow, Real.rpow_zero, Real.rpow_one]

/-- C8 witness at `(Vp, Vs, rho) = (2, 1, 3)`. -/
theorem C8_witness :
    extended_elastic_impedance 2 1 3 0 2 1 3 = elastic_impedance 2 1 3 0 :=
  C8_eei_reduces_to_ei 2 1 3 (by norm_num) (by norm_num) (by norm_num)

/-- C9 counterexample: `exact_hti` raises NameError on every call, even on
the empty angle sequence with fully valid layer constants, so not every
reflectivity formula maps an empty input to an empty output. -/
theorem C9_exact_hti_empty_raises :
    exact_hti 2 1 1 0 0 0 4 2 2 0 0 0 ([] : List ℝ) =
      Except.error Err.nameError := by
  unfold exact_hti Cij1
  norm_num

/-- C9 (amended): for valid (positive) layer constants, `snell` and every
reflectivity formula except `exact_hti` maps the empty angle sequence to an
empty output with no exception, and whenever a call returns a sequence it
has exactly the length of the input sequence; `exact_hti` instead never
returns an output sequence (it raises on every input, the empty sequence
included). -/
theorem C9_lengths (vp1 vs1 rho1 vp2 vs2 rho2 e1 d1 y1 e2 d2 y2 az
    q11 q13 q33 q55 r11 r13 r33 r55 : ℝ)
    (h1 : 0 < vp1) (h2 : 0 < vs1) (h3 : 0 < rho1)
    (h4 : 0 < vp2) (h5 : 0 < vs2) (h6 : 0 < rho2) :
    (snell vp1 vp2 vs1 vs2 [] = Except.ok [] ∧
      ∀ θs L, snell vp1 vp2 vs1 vs2 θs = Except.ok L →
        L.length = θs.length) ∧
    (shuey vp1 vs1 rho1 vp2 vs2 rho2 [] = Except.ok [] ∧
      ∀ θs out, shuey vp1 vs1 rho1 vp2 vs2 rho2 θs = Except.ok out →
        out.length = θs.length) ∧
    (aki_richards vp1 vs1 rho1 vp2 vs2 rho2 [] = Except.ok [] ∧
      ∀ θs out, aki_richards vp1 vs1 rho1 vp2 vs2 rho2 θs = Except.ok out →
        out.length = θs.length) ∧
    (bortfeld vp1 vs1 rho1 vp2 vs2 rho2 [] = Except.ok [] ∧
      ∀ θs out, bortfeld vp1 vs1 rho1 vp2 vs2 rho2 θs = Except.ok out →
        out.length = θs.length) ∧
    (zoeppritz vp1 vs1 rho1 vp2 vs2 rho2 [] = Except.ok [] ∧
      ∀ θs out, zoeppritz vp1 vs1 rho1 vp2 vs2 rho2 θs = Except.ok out →
        out.length = θs.length) ∧
    (ruger_vti vp1 vs1 rho1 e1 d1 vp2 vs2 rho2 e2 d2 [] = Except.ok [] ∧
      ∀ θs out, ruger_vti vp1 vs1 rho1 e1 d1 vp2 vs2 rho2 e2 d2 θs =
        Except.ok out → out.length = θs.length) ∧
    (ruger_hti vp1 vs1 rho1 e1 d1 y1 vp2 vs2 rho2 e2 d2 y2 [] az =
        Except.ok [] ∧
      ∀ θs out, ruger_hti vp1 vs1 rho1 e1 d1 y1 vp2 vs2 rho2 e2 d2 y2 θs az =
        Except.ok out → out.length = θs.length) ∧
    (exact_vti vp1 vp2 vs1 vs2 rho1 rho2 []
        q11 q13 q33 q55 r11 r13 r33 r55 = Except.ok [] ∧
      ∀ θs out, exact_vti vp1 vp2 vs1 vs2 rho1 rho2 θs
        q11 q13 q33 q55 r11 r13 r33 r55 = Except.ok out →
        out.length = θs.length) ∧
    (∀ θs out, exact_hti vp1 vs1 rho1 e1 d1 y1 vp2 vs2 rho2 e2 d2 y2 θs ≠
      Except.ok out) := by
  have hsn : ¬ (vp2 = 0 ∨ vs2 = 0) := by push_neg; exact ⟨h4.ne', h5.ne'⟩
  refine ⟨⟨?_, ?_⟩, ⟨?_, ?_⟩, ⟨?_, ?_⟩, ⟨?_, ?_⟩, ⟨?_, ?_⟩, ⟨?_, ?_⟩,
    ⟨?_, ?_⟩, ⟨?_, ?_⟩, ?_⟩
  · unfold snell
    rw [if_neg hsn]
    rfl
  · intro θs L h
    unfold snell at h
    rw [if_neg hsn] at h
    injection h with h'
    rw [← h']
    exact List.length_map _ _
  · unfold shuey
    rw [if_neg hsn, if_neg (by simp),
      if_neg (by push_neg; exact ⟨by positivity, by positivity, by positivity⟩)]
    rfl
  · intro θs out h
    unfold shuey at h
    split at h
    · simp at h
    · split at h
      · simp at h
      · split at h
        · simp at h
        · exact mapFormula_length _ _ _ h
  · unfold aki_richards
    rw [if_neg hsn, if_neg (by simp), if_neg (by positivity)]
    rfl
  · intro θs out h
    unfold aki_richards at h
    split at h
    · simp at h
    · split at h
      · simp at h
      · split at h
        · simp at h
        · exact mapFormula_length _ _ _ h
  · unfold bortfeld
    rw [if_neg hsn, if_neg (by simp),
      if_neg (by push_neg; exact ⟨h3.ne', h2.ne'⟩)]
    rfl
  · intro θs out h
    unfold bortfeld at h
    split at h
    · simp at h
    · split at h
      · simp at h
      · split at h
        · simp at h
        · exact mapFormula_length _ _ _ h
  · unfold zoeppritz
    rw [if_neg hsn]
    rfl
  · intro θs out h
    unfold zoeppritz at h
    split at h
    · simp at h
    · exact mapFormula_length _ _ _ h
  · unfold ruger_vti
    rw [if_neg hsn, if_neg (by simp),
      if_neg (by push_neg; exact ⟨by positivity, by positivity, by positivity⟩)]
    rfl
  · intro θs out h
    unfold ruger_vti at h
    split at h
    · simp at h
    · split at h
      · simp at h
      · split at h
        · simp at h
        · exact mapFormula_length _ _ _ h
  · unfold ruger_hti
    rw [if_neg hsn,
      if_neg (by push_neg; exact ⟨by positivity, by positivity, by positivity⟩)]
    rfl
  · intro θs out h
    unfold ruger_hti at h
    split at h
    · simp at h
    · split at h
      · simp at h
      · exact mapFormula_length _ _ _ h
  · unfold exact_vti
    rw [if_neg (by push_neg; exact ⟨h4.ne', h5.ne', h1.ne', h3.ne', h2.ne', h6.ne'⟩),
      if_neg (by simp)]
    rfl
  · intro θs out h
    unfold exact_vti at h
    split at h
    · simp at h
    · split at h
      · simp at h
      · exact mapFormula_length _ _ _ h
  · intro θs out h
    unfold exact_hti at h
    cases hc1 : Cij1 e1 d1 y1 rho1 vp1 vs1 with
    | error er => rw [hc1] at h; simp at h
    | ok Cm =>
      rw [hc1] at h
      cases hc2 : Cij1 e2 d2 y2 rho2 vp2 vs2 with
      | error er => rw [hc2] at h; simp at h
      | ok Cp =>
        rw [hc2] at h
        simp [h2.ne'] at h

/-- C9 witness: empty in, empty out for the exact Zoeppritz solver at
concrete valid layers. -/
theorem C9_witness : zoeppritz 2 1 1 4 2 2 [] = Except.ok [] :=
  (C9_lengths 2 1 1 4 2 2 0 0 0 0 0 0 0 0 0 0 0 0 0 0 0 (by norm_num)
    (by norm_num) (by norm_num) (by norm_num) (by norm_num)
    (by norm_num)).2.2.2.2.1.1

/-- C10: the Rpp computed by `ruger_vti` is the Ruger expression at the
incidence angle `theta1` itself: line 259 computes the mean angle from the
transmitted angle `theta2` but line 260 immediately overwrites it with
`theta1`, so the per-angle value is independent of the transmitted-angle
value, and every successful call returns the `theta1`-only expression (the
only other outcomes are the TypeError on a `None` transmitted angle and the
ZeroDivisionError of the scalar averages). -/
theorem C10_ruger_vti_theta1_only
    (Vp1 Vs1 p1 e1 d1 Vp2 Vs2 p2 e2 d2 θ1 : ℝ) :
    (∀ t2 t2' : PyF,
      rugerVtiCore Vp1 Vs1 p1 e1 d1 Vp2 Vs2 p2 e2 d2 θ1 t2 =
      rugerVtiCore Vp1 Vs1 p1 e1 d1 Vp2 Vs2 p2 e2 d2 θ1 t2') ∧
    (ruger_vti1 Vp1 Vs1 p1 e1 d1 Vp2 Vs2 p2 e2 d2 θ1 =
        Except.ok (rugerVtiRpp Vp1 Vs1 p1 e1 d1 Vp2 Vs2 p2 e2 d2 θ1) ∨
      ruger_vti1 Vp1 Vs1 p1 e1 d1 Vp2 Vs2 p2 e2 d2 θ1 =
        Except.error Err.typeError ∨
      ruger_vti1 Vp1 Vs1 p1 e1 d1 Vp2 Vs2 p2 e2 d2 θ1 =
        Except.error Err.zeroDivisionError) := by
  constructor
  · intro t2 t2'
    rfl
  · simp only [ruger_vti1]
    cases h : (snell1 Vp1 Vp2 Vs1 Vs2 θ1).t2 with
    | none => right; left; rfl
    | some t2 =>
      by_cases hg : (p1*Vp1 + p2*Vp2)/2 = 0 ∨ (Vp1 + Vp2)/2 = 0 ∨
          (p1*Vs1^2 + p2*Vs2^2)/2 = 0
      · right; right
        show (if (p1*Vp1 + p2*Vp2)/2 = 0 ∨ (Vp1 + Vp2)/2 = 0 ∨
            (p1*Vs1^2 + p2*Vs2^2)/2 = 0 then
            Except.error Err.zeroDivisionError
          else Except.ok (rugerVtiCore Vp1 Vs1 p1 e1 d1 Vp2 Vs2 p2 e2 d2 θ1 t2)) =
          Except.error Err.zeroDivisionError
        rw [if_pos hg]
      · left
        show (if (p1*Vp1 + p2*Vp2)/2 = 0 ∨ (Vp1 + Vp2)/2 = 0 ∨
            (p1*Vs1^2 + p2*Vs2^2)/2 = 0 then
            Except.error Err.zeroDivisionError
          else Except.ok (rugerVtiCore Vp1 Vs1 p1 e1 d1 Vp2 Vs2 p2 e2 d2 θ1 t2)) =
          Except.ok (rugerVtiRpp Vp1 Vs1 p1 e1 d1 Vp2 Vs2 p2 e2 d2 θ1)
        rw [if_neg hg]
        rfl

end
